import Mathlib

/-!
Verification of the Anthropic-to-OpenAI protocol-translating proxy
(services under src/services and the wire schemas under src/api and
src/models). Python pydantic models become Lean structures, the pure
translation functions become Lean functions, and the two external
standard-library operations (json.loads and json.dumps) are passed in as
function parameters where a translator calls them.
-/

/-- JSON values, the shape of the dynamically typed dicts the Python
services manipulate (tool input schemas, tool arguments). -/
inductive Json where
  | null
  | bool (b : Bool)
  | num (n : Int)
  | str (s : String)
  | arr (elems : List Json)
  | obj (fields : List (String × Json))

/-- First-match lookup of a key in an object's field list, the image of a
Python dict access. -/
def jLookup (key : String) : List (String × Json) → Option Json
  | [] => none
  | kv :: rest => if kv.1 = key then some kv.2 else jLookup key rest

/-- Removal of every binding of a key, the image of del d[key] on a
Python dict (which holds each key at most once). -/
def removeKey (key : String) (fields : List (String × Json)) :
    List (String × Json) :=
  fields.filter (fun kv => !(kv.1 == key))

/-- Check that a character list starts with a pattern. -/
def startsWithL : List Char → List Char → Bool
  | _, [] => true
  | [], _ :: _ => false
  | a :: as, b :: bs => (a == b) && startsWithL as bs

/-- Check that a pattern occurs inside a character list, the image of the
Python substring test. -/
def hasSubL (pat : List Char) : List Char → Bool
  | [] => startsWithL [] pat
  | a :: rest => startsWithL (a :: rest) pat || hasSubL pat rest

/-- Substring test on strings, modelling the Python expression
sub in s. -/
def strContains (s pat : String) : Bool :=
  hasSubL pat.toList s.toList

/-- Lower-casing of a string, modelling the Python str.lower call on the
ASCII error-type tags it is applied to. -/
def lowerStr (s : String) : String :=
  String.mk (s.toList.map Char.toLower)

/-! Wire schemas of the upstream (OpenAI-shaped) unary response, from
src/models/openai_provider_models.py. -/

/-- Function payload of a tool call (openai_provider_models.py, class
OpenAIFunctionCall): the name and the JSON-encoded arguments string. -/
structure OpenAIFunctionCall where
  name : String
  arguments : String

/-- One upstream tool call (class OpenAIToolCall; the type discriminator
is the constant function and is omitted). -/
structure OpenAIToolCall where
  id : String
  function : OpenAIFunctionCall

/-- Assistant message of one upstream choice (class
OpenAIChatCompletionChoiceMessage; the constant role assistant is
omitted). -/
structure OpenAIChatCompletionChoiceMessage where
  content : Option String
  tool_calls : Option (List OpenAIToolCall)

/-- One upstream choice (class OpenAIChatCompletionChoice restricted to
the fields the unary translator reads). -/
structure OpenAIChatCompletionChoice where
  finish_reason : Option String
  message : OpenAIChatCompletionChoiceMessage

/-- Upstream usage record (class OpenAICompletionUsage). -/
structure OpenAICompletionUsage where
  completion_tokens : Int
  prompt_tokens : Int
  total_tokens : Int

/-- Upstream unary response (class OpenAIChatCompletionResponse
restricted to the fields the unary translator reads: id, choices, model,
usage). -/
structure OpenAIChatCompletionResponse where
  id : String
  choices : List OpenAIChatCompletionChoice
  model : String
  usage : Option OpenAICompletionUsage

/-! Anthropic response schema, from src/api/v1/schemas/anthropic_api.py. -/

/-- One Anthropic response content block
(anthropic_api.py classes AnthropicContentBlockText and
AnthropicContentBlockToolUse). -/
inductive AnthropicContentBlock where
  | text (text : String)
  | tool_use (id : String) (name : String) (input : Json)

/-- Anthropic usage record (class AnthropicUsage). -/
structure AnthropicUsage where
  input_tokens : Int
  output_tokens : Int

/-- Anthropic unary response (class AnthropicMessagesResponse); the
fields type and role are declared with the pydantic defaults message and
assistant. -/
structure AnthropicMessagesResponse where
  id : String
  type : String := "message"
  role : String := "assistant"
  model : String
  content : List AnthropicContentBlock
  stop_reason : Option String := none
  usage : AnthropicUsage

/-- The finish-reason to stop-reason dictionary shared by
response_translator_service.py (lines 86-92) and
anthropic_sse_builder_service.py (lines 57-63); an unknown value passes
through unchanged via dict.get. -/
def stop_reason_map (finish_reason : String) : String :=
  if finish_reason = "stop" then "end_turn"
  else if finish_reason = "length" then "max_tokens"
  else if finish_reason = "tool_calls" then "tool_use"
  else if finish_reason = "content_filter" then "content_filtered"
  else if finish_reason = "function_call" then "tool_use"
  else finish_reason

/-- Error message standing for the pydantic ValidationError raised when
AnthropicContentBlockToolUse.input (typed Dict str Any in
anthropic_api.py line 25) receives a value that is not a JSON object. -/
def tool_use_input_error_message : String :=
  "tool_use input validation failed: input is not an object"

/-- Translation of one upstream tool call to an Anthropic tool_use block
(response_translator_service.py lines 33-52). The parseJson parameter
models json.loads: none models a raised JSONDecodeError, in which case
the source keeps the raw arguments string; constructing the pydantic
block then validates that the input value is an object and fails
otherwise. -/
def translate_tool_call (parseJson : String → Option Json)
    (tool_call : OpenAIToolCall) : Except String AnthropicContentBlock :=
  match parseJson tool_call.function.arguments with
  | some (Json.obj fields) =>
      Except.ok (AnthropicContentBlock.tool_use tool_call.id
        tool_call.function.name (Json.obj fields))
  | some _ => Except.error tool_use_input_error_message
  | none => Except.error tool_use_input_error_message

/-- Sequencing of fallible translations over a list; an error aborts the
whole list, the image of a Python exception escaping the for loop. -/
def mapMExcept {α β : Type} (f : α → Except String β) :
    List α → Except String (List β)
  | [] => Except.ok []
  | a :: as =>
    match f a with
    | Except.error e => Except.error e
    | Except.ok b =>
      match mapMExcept f as with
      | Except.error e => Except.error e
      | Except.ok bs => Except.ok (b :: bs)

/-- Translation of the upstream assistant message body
(response_translator_service.py, function
_translate_openai_message_content_to_anthropic): one text block when the
content string is present and non-empty, then one tool_use block per
tool call. -/
def translate_openai_message_content_to_anthropic
    (parseJson : String → Option Json)
    (openai_message : OpenAIChatCompletionChoiceMessage)
    (response_id : String) (model_name : String)
    (usage : OpenAICompletionUsage) :
    Except String AnthropicMessagesResponse :=
  let text_blocks : List AnthropicContentBlock :=
    match openai_message.content with
    | some t => if t = "" then [] else [AnthropicContentBlock.text t]
    | none => []
  let tool_blocks_result : Except String (List AnthropicContentBlock) :=
    match openai_message.tool_calls with
    | some tcs =>
        if tcs.isEmpty then Except.ok []
        else mapMExcept (translate_tool_call parseJson) tcs
    | none => Except.ok []
  match tool_blocks_result with
  | Except.error e => Except.error e
  | Except.ok tool_blocks =>
      Except.ok
        { id := response_id
          model := model_name
          content := text_blocks ++ tool_blocks
          usage :=
            { input_tokens := usage.prompt_tokens
              output_tokens := usage.completion_tokens } }

/-- Unary response translation (response_translator_service.py, function
translate_openai_to_anthropic_response): raises ValueError when choices
is empty, otherwise translates the first choice and maps its finish
reason. -/
def translate_openai_to_anthropic_response
    (parseJson : String → Option Json)
    (openai_response : OpenAIChatCompletionResponse) :
    Except String AnthropicMessagesResponse :=
  match openai_response.choices with
  | [] => Except.error "OpenAI response had no choices."
  | first_choice :: _ =>
    match translate_openai_message_content_to_anthropic parseJson
        first_choice.message openai_response.id openai_response.model
        (match openai_response.usage with
         | some u => u
         | none =>
             { completion_tokens := 0, prompt_tokens := 0,
               total_tokens := 0 }) with
    | Except.error e => Except.error e
    | Except.ok r =>
        Except.ok
          (match first_choice.finish_reason with
           | some fr => { r with stop_reason := some (stop_reason_map fr) }
           | none => r)

/-! Error translation, from src/services/error_translator_service.py. -/

/-- Input shape of the error translator as built by its callers: the
value of the error key of the dict argument, either itself a dict with
optional type and message entries, or a bare string
(error_translator_service.py lines 23-27). -/
inductive OpenAIErrorDetails where
  | errorObj (etype : Option String) (message : Option String)
  | errorStr (s : String)

/-- Nested error object of the Anthropic error body. -/
structure AnthropicErrorContent where
  type : String
  message : String

/-- Anthropic error body: a dict with type error and a nested error
object (error_translator_service.py line 64). -/
structure AnthropicErrorBody where
  type : String := "error"
  error : AnthropicErrorContent

/-- Error translation (error_translator_service.py, function
translate_openai_error_to_anthropic_format, dict branch lines 23-57):
keyword search over the lower-cased upstream error type; an absent or
falsy (empty) type keeps the default api_error. The source also accepts
exception objects (lines 58-63, mapping ConnectionError to
api_connection_error), a branch no caller in the services reaches. -/
def translate_openai_error_to_anthropic_format :
    OpenAIErrorDetails → AnthropicErrorBody
  | OpenAIErrorDetails.errorStr s =>
      { error := { type := "api_error", message := s } }
  | OpenAIErrorDetails.errorObj etype message =>
      let error_message :=
        match message with
        | some m => m
        | none => "An unexpected error occurred."
      let error_type :=
        match etype with
        | none => "api_error"
        | some raw =>
            if raw = "" then "api_error"
            else
              let lowered := lowerStr raw
              if strContains lowered "auth" || strContains lowered "permission"
                  || strContains lowered "key" then
                "authentication_error"
              else if strContains lowered "rate_limit" then
                "rate_limit_error"
              else if strContains lowered "invalid_request"
                  || strContains lowered "validation"
                  || strContains lowered "bad_request" then
                "invalid_request_error"
              else if strContains lowered "not_found"
                  || strContains lowered "model_not_found" then
                "not_found_error"
              else if strContains lowered "overloaded"
                  || strContains lowered "capacity"
                  || strContains lowered "unavailable" then
                "overloaded_error"
              else "api_error"
      { error := { type := error_type, message := error_message } }

/-- Result of the unary orchestrator path: either a translated Anthropic
response or an Anthropic error body. -/
inductive OrchestratorUnaryResult where
  | response (r : AnthropicMessagesResponse)
  | errorBody (e : AnthropicErrorBody)

/-- Unary orchestration after the upstream call
(message_flow_orchestrator.py lines 154-167 and the ValueError handler
at lines 193-199): a ValueError raised by the response translator is
converted to an Anthropic error body with type invalid_request_error. -/
def orchestrate_unary (parseJson : String → Option Json)
    (openai_response : OpenAIChatCompletionResponse) :
    OrchestratorUnaryResult :=
  match translate_openai_to_anthropic_response parseJson openai_response with
  | Except.ok r => OrchestratorUnaryResult.response r
  | Except.error msg =>
      OrchestratorUnaryResult.errorBody
        (translate_openai_error_to_anthropic_format
          (OpenAIErrorDetails.errorObj (some "invalid_request_error")
            (some msg)))

/-- Transport-failure orchestration (message_flow_orchestrator.py lines
180-192): an httpx.RequestError is wrapped as an error dict whose type
is the literal connection_error before the error translator runs. -/
def orchestrate_transport_failure (request_error_message : String) :
    AnthropicErrorBody :=
  translate_openai_error_to_anthropic_format
    (OpenAIErrorDetails.errorObj (some "connection_error")
      (some ("Could not connect to LiteLLM proxy: "
        ++ request_error_message)))

/-! Tool-schema sanitisation, from src/services/request_translator_service.py
lines 181-207. -/

/-- Condition under which the sanitiser deletes the format key of one
property schema (request_translator_service.py lines 193-198): the
schema is a dict whose type entry equals the string string, holding a
format entry different from the string date-time. -/
def stringFormatNeedsRemoval (fields : List (String × Json)) : Bool :=
  (match jLookup "type" fields with
   | some (Json.str t) => t == "string"
   | _ => false)
  &&
  (match jLookup "format" fields with
   | some (Json.str f) => !(f == "date-time")
   | some _ => true
   | none => false)

/-- Sanitisation of one property schema: delete its format key when the
removal condition holds, otherwise leave the value unchanged (non-dict
property schemas are never touched). -/
def sanitize_property_schema (v : Json) : Json :=
  match v with
  | Json.obj fields =>
      if stringFormatNeedsRemoval fields then
        Json.obj (removeKey "format" fields)
      else Json.obj fields
  | other => other

/-- Sanitisation of the top-level properties dict of a tool input
schema: the source iterates the immediate entries of properties and
applies the per-property deletion; it does not recurse into nested
schemas. -/
def sanitize_tool_properties (props : List (String × Json)) :
    List (String × Json) :=
  props.map (fun kv => (kv.1, sanitize_property_schema kv.2))

/-- Tool input schema (anthropic_api.py class AnthropicToolInputSchema
after model_dump: the constant type object plus properties and optional
required). -/
structure AnthropicToolInputSchema where
  properties : List (String × Json)
  required : Option (List String) := none

/-- One Anthropic tool declaration (anthropic_api.py class
AnthropicTool). -/
structure AnthropicTool where
  name : String
  description : Option String := none
  input_schema : AnthropicToolInputSchema

/-- Upstream function declaration (openai_provider_models.py class
OpenAIFunctionDefinition, with the parameters dict split into its
properties and required entries). -/
structure OpenAIFunctionDefinition where
  name : String
  description : Option String
  parameters_properties : List (String × Json)
  parameters_required : Option (List String)

/-- Tool translation (request_translator_service.py, loop body of
_translate_anthropic_tools_to_openai): sanitise the properties dict and
carry name, description and required over. -/
def translate_anthropic_tool_to_openai (tool : AnthropicTool) :
    OpenAIFunctionDefinition :=
  { name := tool.name
    description := tool.description
    parameters_properties := sanitize_tool_properties tool.input_schema.properties
    parameters_required := tool.input_schema.required }

mutual

/-- Recursive well-sanitisedness checker stating the property claimed of
the sanitiser: no object anywhere in the value, at any depth, still
satisfies the format-removal condition. -/
def formatFullySanitized : Json → Bool
  | Json.obj fields =>
      !(stringFormatNeedsRemoval fields) && formatFullySanitizedFields fields
  | Json.arr elems => formatFullySanitizedList elems
  | _ => true

/-- List form of the well-sanitisedness checker for array elements. -/
def formatFullySanitizedList : List Json → Bool
  | [] => true
  | v :: rest => formatFullySanitized v && formatFullySanitizedList rest

/-- Field form of the well-sanitisedness checker for object entries. -/
def formatFullySanitizedFields : List (String × Json) → Bool
  | [] => true
  | kv :: rest => formatFullySanitized kv.2 && formatFullySanitizedFields rest

end

/-! Request-side message translation, from
src/services/request_translator_service.py lines 69-140 (the user-role
branch of _translate_anthropic_messages_to_openai). -/

/-- Content blocks of an Anthropic request message (the union in
anthropic_api.py lines 35-47): text, image, tool_use, tool_result. -/
inductive AnthropicRequestContentBlock where
  | text (text : String)
  | image (media_type : Option String) (data : String)
  | tool_use (id : String) (name : String) (input : Json)
  | tool_result (tool_use_id : String) (content : Sum String (List Json))
      (is_error : Option Bool)

/-- One part of an upstream user message content list
(openai_provider_models.py classes OpenAIMessageContentPartText and
OpenAIMessageContentPartImage). -/
inductive OpenAIContentPart where
  | text (text : String)
  | image_url (url : String)

/-- One upstream chat message (openai_provider_models.py classes
OpenAIChatMessageSystem, OpenAIChatMessageUser,
OpenAIChatMessageAssistant, OpenAIChatMessageTool). -/
inductive OpenAIRequestMessage where
  | system (content : String)
  | user (content : Sum String (List OpenAIContentPart))
  | assistant (content : Option String)
      (tool_calls : Option (List OpenAIToolCall))
  | tool (tool_call_id : String) (content : String)

/-- Media type fallback (request_translator_service.py line 86): the
Python expression block.source.media_type or image/jpeg treats both an
absent and an empty media type as the default. -/
def mediaTypeOrDefault : Option String → String
  | some s => if s = "" then "image/jpeg" else s
  | none => "image/jpeg"

/-- Stringification of a tool_result content value
(request_translator_service.py lines 97-106): a string passes through
unchanged, a list is serialised with json.dumps, modelled by the dumps
parameter. -/
def stringify_tool_result_content (dumps : Json → String) :
    Sum String (List Json) → String
  | Sum.inl s => s
  | Sum.inr items => dumps (Json.arr items)

/-- Collection pass over the blocks of one user message
(request_translator_service.py lines 80-113): text and image blocks
accumulate as content parts, tool_result blocks accumulate as tool
messages, each list in block order; tool_use blocks match no branch and
are skipped. -/
def collect_user_blocks (dumps : Json → String) :
    List AnthropicRequestContentBlock →
      List OpenAIContentPart × List OpenAIRequestMessage
  | [] => ([], [])
  | block :: rest =>
    let acc := collect_user_blocks dumps rest
    match block with
    | AnthropicRequestContentBlock.text t =>
        (OpenAIContentPart.text t :: acc.1, acc.2)
    | AnthropicRequestContentBlock.image mt data =>
        (OpenAIContentPart.image_url
            ("data:" ++ mediaTypeOrDefault mt ++ ";base64," ++ data) :: acc.1,
         acc.2)
    | AnthropicRequestContentBlock.tool_result tid c _ =>
        (acc.1,
         OpenAIRequestMessage.tool tid
           (stringify_tool_result_content dumps c) :: acc.2)
    | AnthropicRequestContentBlock.tool_use _ _ _ => acc

/-- Emission step for one user message whose content is a block list
(request_translator_service.py lines 114-140): first every tool message,
then, when text or image parts were collected, one aggregated user
message (a bare string when the parts are a single text part, the part
list otherwise); a message with no blocks at all emits one user message
with empty string content. -/
def translate_user_content_blocks (dumps : Json → String)
    (blocks : List AnthropicRequestContentBlock) :
    List OpenAIRequestMessage :=
  let collected := collect_user_blocks dumps blocks
  let parts := collected.1
  let tool_results := collected.2
  tool_results ++
    (if parts.isEmpty then
      (if blocks.isEmpty && tool_results.isEmpty && parts.isEmpty then
        [OpenAIRequestMessage.user (Sum.inl "")]
      else [])
    else
      match parts with
      | [OpenAIContentPart.text t] =>
          [OpenAIRequestMessage.user (Sum.inl t)]
      | _ => [OpenAIRequestMessage.user (Sum.inr parts)])

/-- Trailing part of the emission step after the tool messages: the
aggregated user message when parts were collected, or the empty-content
user message for a blockless message, or nothing. -/
def userTail (dumps : Json → String)
    (blocks : List AnthropicRequestContentBlock) :
    List OpenAIRequestMessage :=
  let collected := collect_user_blocks dumps blocks
  let parts := collected.1
  let tool_results := collected.2
  if parts.isEmpty then
    (if blocks.isEmpty && tool_results.isEmpty && parts.isEmpty then
      [OpenAIRequestMessage.user (Sum.inl "")]
    else [])
  else
    match parts with
    | [OpenAIContentPart.text t] => [OpenAIRequestMessage.user (Sum.inl t)]
    | _ => [OpenAIRequestMessage.user (Sum.inr parts)]

/-- Projection of one block to the tool message it yields, used to state
the ordering theorem. -/
def tool_result_message (dumps : Json → String) :
    AnthropicRequestContentBlock → Option OpenAIRequestMessage
  | AnthropicRequestContentBlock.tool_result tid c _ =>
      some (OpenAIRequestMessage.tool tid
        (stringify_tool_result_content dumps c))
  | _ => none

/-- Recogniser of user-role upstream messages. -/
def is_user_message : OpenAIRequestMessage → Bool
  | OpenAIRequestMessage.user _ => true
  | _ => false

/-- Whether a block list holds at least one text or image block. -/
def has_text_or_image_block (blocks : List AnthropicRequestContentBlock) :
    Bool :=
  blocks.any (fun b =>
    match b with
    | AnthropicRequestContentBlock.text _ => true
    | AnthropicRequestContentBlock.image _ _ => true
    | _ => false)

/-! Stream translation, from src/services/anthropic_sse_builder_service.py. -/

/-- Delta of one upstream stream chunk choice
(openai_provider_models.py class OpenAIChatCompletionChunkChoiceDelta
restricted to the fields the builder reads). -/
structure OpenAIStreamDelta where
  content : Option String
  tool_calls : Option (List OpenAIToolCall)

/-- One upstream stream chunk choice (class
OpenAIChatCompletionChunkChoice). -/
structure OpenAIStreamChoice where
  delta : OpenAIStreamDelta
  finish_reason : Option String

/-- One upstream stream chunk (class OpenAIChatCompletionChunk
restricted to the fields the builder reads). -/
structure OpenAIChunk where
  id : String
  choices : List OpenAIStreamChoice
  usage : Option OpenAICompletionUsage

/-- Anthropic SSE events as the builder's helper functions construct
them (anthropic_sse_builder_service.py lines 11-80): each constructor
carries exactly the payload fields the corresponding helper serialises.
The builder only ever opens text blocks. -/
inductive SSEEvent where
  | message_start (id : String) (model : String)
  | content_block_start_text (index : Nat)
  | content_block_delta_text (index : Nat) (text : String)
  | content_block_stop (index : Nat)
  | message_delta (stop_reason : String) (output_tokens : Int)
  | message_stop
deriving DecidableEq

/-- Mutable state of the builder loop (anthropic_sse_builder_service.py
lines 90-94): the message_start latch, the current block index, and the
set of indices whose content_block_start was sent. -/
structure SSEState where
  sent_message_start : Bool
  current_block_index : Nat
  sent_content_block_starts : List Nat

/-- Terminal events for a finish reason
(anthropic_sse_builder_service.py, function
_build_message_completion_events): message_delta with the mapped stop
reason and the completion tokens of the chunk usage when present,
defaulting to the placeholder 1, followed by message_stop. -/
def build_message_completion_events (finish_reason : String)
    (chunk_usage : Option OpenAICompletionUsage) : List SSEEvent :=
  let output_tokens : Int :=
    match chunk_usage with
    | some u => u.completion_tokens
    | none => 1
  [SSEEvent.message_delta (stop_reason_map finish_reason) output_tokens,
   SSEEvent.message_stop]

/-- Body of the builder's async-for loop
(anthropic_sse_builder_service.py lines 96-147) for one chunk: emit
message_start once, open and feed the text block for a non-empty content
delta, ignore tool-call deltas (the delta.tool_calls branch at lines
129-131 is an unimplemented pass), and on a finish reason close the open
block, emit the completion events and reset the whole state. -/
def processChunk (request_model_id : String) (initial_response_id : String)
    (st : SSEState) (chunk : OpenAIChunk) : SSEState × List SSEEvent :=
  let startStep :=
    if st.sent_message_start then (st, ([] : List SSEEvent))
    else
      ({ st with sent_message_start := true },
       [SSEEvent.message_start initial_response_id request_model_id])
  let st1 := startStep.1
  let evs1 := startStep.2
  match chunk.choices with
  | [] => (st1, evs1)
  | choice :: _ =>
    let contentStep :=
      match choice.delta.content with
      | some t =>
          if t = "" then (st1, ([] : List SSEEvent))
          else
            if st1.sent_content_block_starts.contains st1.current_block_index
            then
              (st1, [SSEEvent.content_block_delta_text
                st1.current_block_index t])
            else
              ({ st1 with sent_content_block_starts :=
                  st1.current_block_index :: st1.sent_content_block_starts },
               [SSEEvent.content_block_start_text st1.current_block_index,
                SSEEvent.content_block_delta_text st1.current_block_index t])
      | none => (st1, ([] : List SSEEvent))
    let st2 := contentStep.1
    let evs2 := contentStep.2
    match choice.finish_reason with
    | some fr =>
        let stopEvs :=
          if st2.sent_content_block_starts.contains st2.current_block_index
          then [SSEEvent.content_block_stop st2.current_block_index]
          else []
        (⟨false, 0, []⟩,
         evs1 ++ evs2 ++ stopEvs
           ++ build_message_completion_events fr chunk.usage)
    | none => (st2, evs1 ++ evs2)

/-- Iteration of the loop body over the chunk list, threading the state
and concatenating the yielded events. -/
def stepChunks (request_model_id : String) (initial_response_id : String)
    (st : SSEState) : List OpenAIChunk → SSEState × List SSEEvent
  | [] => (st, [])
  | chunk :: rest =>
    let p := processChunk request_model_id initial_response_id st chunk
    let q := stepChunks request_model_id initial_response_id p.1 rest
    (q.1, p.2 ++ q.2)

/-- Whole-stream translation (anthropic_sse_builder_service.py, function
build_anthropic_sse_stream): run the loop from the fresh state. -/
def build_anthropic_sse_stream (request_model_id : String)
    (initial_response_id : String) (chunks : List OpenAIChunk) :
    List SSEEvent :=
  (stepChunks request_model_id initial_response_id
    ⟨false, 0, []⟩ chunks).2

/-- Count of message_start events in an event list. -/
def countMessageStarts (evs : List SSEEvent) : Nat :=
  evs.countP (fun e =>
    match e with
    | SSEEvent.message_start _ _ => true
    | _ => false)

/-- Recogniser of the two terminal events message_delta and
message_stop, which the builder emits only from its finish-reason
branch. -/
def isTerminalEvent : SSEEvent → Bool
  | SSEEvent.message_delta _ _ => true
  | SSEEvent.message_stop => true
  | _ => false

/-- Whether a chunk carries a finish reason on its first choice, the
condition the builder's terminal branch tests. -/
def chunkHasFinish (chunk : OpenAIChunk) : Bool :=
  match chunk.choices with
  | [] => false
  | choice :: _ => choice.finish_reason.isSome

mutual

/-- Recogniser of the event-sequence suffix after message_start: zero or
more complete content-block groups at strictly increasing indices from
the given bound, then exactly one message_delta and one message_stop. -/
def checkGroups (next : Nat) : List SSEEvent → Bool
  | [SSEEvent.message_delta _ _, SSEEvent.message_stop] => true
  | SSEEvent.content_block_start_text i :: rest =>
      decide (next ≤ i) && checkInBlock i rest
  | _ => false

/-- Recogniser of the inside of an open content block: deltas at the
block's index until its content_block_stop, then further groups at
larger indices. -/
def checkInBlock (i : Nat) : List SSEEvent → Bool
  | SSEEvent.content_block_delta_text j _ :: rest =>
      (j == i) && checkInBlock i rest
  | SSEEvent.content_block_stop j :: rest =>
      (j == i) && checkGroups (i + 1) rest
  | _ => false

end

/-- Recogniser of a complete well-bracketed Anthropic event stream:
exactly one message_start first, then complete block groups at strictly
increasing indices starting from 0, then exactly one message_delta and
one message_stop. -/
def isBracketedStream : List SSEEvent → Bool
  | SSEEvent.message_start _ _ :: rest => checkGroups 0 rest
  | _ => false

/-- Event lists holding only text deltas routed to block index 0, the
shape of the events the builder emits between opening and closing its
single text block. -/
def AllDeltas0 (evs : List SSEEvent) : Prop :=
  ∀ e ∈ evs, ∃ t, e = SSEEvent.content_block_delta_text 0 t

/-! Concrete inputs used by the closed statements below. -/

/-- Stub standing for json.loads in closed statements whose runs never
parse an arguments string successfully. -/
def parseJsonNone : String → Option Json := fun _ => none

/-- Stub standing for json.dumps in closed statements; the facts proved
with it hold for every serialiser. -/
def dumpsStub : Json → String := fun _ => ""

/-- Upstream unary response whose single tool call carries arguments
that are not valid JSON. -/
def resp3 : OpenAIChatCompletionResponse :=
  { id := "chatcmpl-33"
    choices :=
      [{ finish_reason := some "tool_calls"
         message :=
           { content := none
             tool_calls := some [{ id := "c1"
                                   function := { name := "f"
                                                 arguments := "not json" } }] } }]
    model := "gpt-4o"
    usage := some { completion_tokens := 1, prompt_tokens := 2,
                    total_tokens := 3 } }

/-- Upstream unary response, produced while serving a caller whose
Anthropic request named the model claude-3-haiku; the upstream reports
its own model id gpt-4o and its own response id. -/
def resp4 : OpenAIChatCompletionResponse :=
  { id := "chatcmpl-77"
    choices :=
      [{ finish_reason := some "stop"
         message := { content := some "Hello", tool_calls := none } }]
    model := "gpt-4o"
    usage := some { completion_tokens := 1, prompt_tokens := 3,
                    total_tokens := 4 } }

/-- Translated image of resp4. -/
def r4 : AnthropicMessagesResponse :=
  { id := "chatcmpl-77"
    model := "gpt-4o"
    content := [AnthropicContentBlock.text "Hello"]
    stop_reason := some "end_turn"
    usage := { input_tokens := 3, output_tokens := 1 } }

/-- Upstream unary response whose message has neither content nor tool
calls. -/
def resp5 : OpenAIChatCompletionResponse :=
  { id := "chatcmpl-88"
    choices :=
      [{ finish_reason := some "stop"
         message := { content := none, tool_calls := none } }]
    model := "gpt-4o"
    usage := some { completion_tokens := 0, prompt_tokens := 3,
                    total_tokens := 3 } }

/-- Translated image of resp5: its content list is empty. -/
def r5 : AnthropicMessagesResponse :=
  { id := "chatcmpl-88"
    model := "gpt-4o"
    content := []
    stop_reason := some "end_turn"
    usage := { input_tokens := 3, output_tokens := 0 } }

/-- Upstream unary response with an empty choices list. -/
def respNoChoices : OpenAIChatCompletionResponse :=
  { id := "chatcmpl-0", choices := [], model := "gpt-4o", usage := none }

/-- Tool whose input schema nests a string property with a removable
format one level below the top-level properties dict: the schema of
property filter is an object schema whose own inner properties hold a
string schema with format email. -/
def tool6 : AnthropicTool :=
  { name := "lookup"
    input_schema :=
      { properties :=
          [("filter",
            Json.obj
              [("type", Json.str "object"),
               ("properties",
                Json.obj
                  [("at",
                    Json.obj
                      [("type", Json.str "string"),
                       ("format", Json.str "email")])])])] } }

/-- Depth-one property schema with a removable format, used to
instantiate the amended sanitiser theorem. -/
def fields6w : List (String × Json) :=
  [("type", Json.str "string"), ("format", Json.str "url"),
   ("maxLength", Json.num 10)]

/-- Upstream chunk stream of a streamed tool call (the literal scenario
of the specification): the tool call arrives as a name fragment and two
argument fragments, then a terminal chunk with finish reason
tool_calls. -/
def toolCallChunks : List OpenAIChunk :=
  [{ id := "chatcmpl-s6"
     choices :=
       [{ delta := { content := none
                     tool_calls := some [{ id := "c1"
                                           function := { name := "f"
                                                         arguments := "" } }] }
          finish_reason := none }]
     usage := none },
   { id := "chatcmpl-s6"
     choices :=
       [{ delta := { content := none
                     tool_calls := some [{ id := "c1"
                                           function := { name := "f"
                                                         arguments := "\x7b\"x\":" } }] }
          finish_reason := none }]
     usage := none },
   { id := "chatcmpl-s6"
     choices :=
       [{ delta := { content := none
                     tool_calls := some [{ id := "c1"
                                           function := { name := "f"
                                                         arguments := "1\x7d" } }] }
          finish_reason := none }]
     usage := none },
   { id := "chatcmpl-s6"
     choices := [{ delta := { content := none, tool_calls := none }
                   finish_reason := some "tool_calls" }]
     usage := none }]

/-- Chunk carrying both a content delta and a finish reason. -/
def chunkFinishA : OpenAIChunk :=
  { id := "id-a"
    choices := [{ delta := { content := some "a", tool_calls := none }
                  finish_reason := some "stop" }]
    usage := none }

/-- Content chunk arriving after the finish chunk. -/
def chunkAfterB : OpenAIChunk :=
  { id := "id-a"
    choices := [{ delta := { content := some "b", tool_calls := none }
                  finish_reason := none }]
    usage := none }

/-- First text chunk of the streamed-text scenario. -/
def chunkHe : OpenAIChunk :=
  { id := "id5"
    choices := [{ delta := { content := some "He", tool_calls := none }
                  finish_reason := none }]
    usage := none }

/-- Second text chunk of the streamed-text scenario. -/
def chunkLlo : OpenAIChunk :=
  { id := "id5"
    choices := [{ delta := { content := some "llo", tool_calls := none }
                  finish_reason := none }]
    usage := none }

/-- Terminal chunk of the streamed-text scenario. -/
def chunkStop : OpenAIChunk :=
  { id := "id5"
    choices := [{ delta := { content := none, tool_calls := none }
                  finish_reason := some "stop" }]
    usage := some { completion_tokens := 2, prompt_tokens := 3,
                    total_tokens := 5 } }

/-- User-message block list mixing tool results and a text part. -/
def blocks8 : List AnthropicRequestContentBlock :=
  [AnthropicRequestContentBlock.tool_result "c1" (Sum.inl "72F") none,
   AnthropicRequestContentBlock.text "and here",
   AnthropicRequestContentBlock.tool_result "c2" (Sum.inl "73F") none]

/-! Helper lemmas. -/

/-- Lookup of a key in a field list from which that key was removed
always fails. -/
theorem jLookup_removeKey_self (key : String)
    (fields : List (String × Json)) :
    jLookup key (removeKey key fields) = none := by
  induction fields with
  | nil => rfl
  | cons kv rest ih =>
      by_cases hkv : kv.1 = key
      · have hstep : removeKey key (kv :: rest) = removeKey key rest := by
          simp [removeKey, List.filter_cons, hkv]
        rw [hstep]
        exact ih
      · have hstep : removeKey key (kv :: rest) = kv :: removeKey key rest := by
          simp [removeKey, List.filter_cons, hkv]
        rw [hstep, jLookup]
        simp only [hkv, if_false]
        exact ih

/-- Lookup of any other key is unaffected by removing a key. -/
theorem jLookup_removeKey_ne (k key : String)
    (fields : List (String × Json)) (h : ¬ k = key) :
    jLookup k (removeKey key fields) = jLookup k fields := by
  induction fields with
  | nil => rfl
  | cons kv rest ih =>
      by_cases hkv : kv.1 = key
      · have hne : ¬ kv.1 = k := by
          intro hk
          apply h
          rw [← hk]
          exact hkv
        have hstep : removeKey key (kv :: rest) = removeKey key rest := by
          simp [removeKey, List.filter_cons, hkv]
        rw [hstep, jLookup]
        simp only [hne, if_false]
        exact ih
      · have hstep : removeKey key (kv :: rest) = kv :: removeKey key rest := by
          simp [removeKey, List.filter_cons, hkv]
        rw [hstep, jLookup, jLookup]
        by_cases hk : kv.1 = k
        · simp only [hk, if_true]
        · simp only [hk, if_false]
          exact ih

/-! Claim theorems. -/

/-- Claim C1 (refuted evaluation): for the streamed-tool-call chunk
sequence the builder emits only message_start, message_delta and
message_stop; no tool_use content block is opened and no arguments
fragment is forwarded, because the delta.tool_calls branch of
build_anthropic_sse_stream is an unimplemented pass. -/
theorem C1_tool_call_stream_eval :
    build_anthropic_sse_stream "claude-3-haiku" "chatcmpl-s6" toolCallChunks
      = [SSEEvent.message_start "chatcmpl-s6" "claude-3-haiku",
         SSEEvent.message_delta "tool_use" 1,
         SSEEvent.message_stop] := by
  rfl

/-- Claim C2 (counterexample, two divergences): first, a content chunk
arriving after the finish-reason chunk is not ignored; the builder
resets its state and emits a second message_start, so the translated
stream holds two message_start events. Second, a stream that ends
without any finish-reason chunk never receives a message_delta or a
message_stop at all: the builder has no end-of-stream epilogue, so the
claimed closing pair is missing entirely. -/
theorem C2_counterexample :
    build_anthropic_sse_stream "claude-3-haiku" "id-a"
        [chunkFinishA, chunkAfterB]
      = [SSEEvent.message_start "id-a" "claude-3-haiku",
         SSEEvent.content_block_start_text 0,
         SSEEvent.content_block_delta_text 0 "a",
         SSEEvent.content_block_stop 0,
         SSEEvent.message_delta "end_turn" 1,
         SSEEvent.message_stop,
         SSEEvent.message_start "id-a" "claude-3-haiku",
         SSEEvent.content_block_start_text 0,
         SSEEvent.content_block_delta_text 0 "b"]
    ∧ countMessageStarts
        (build_anthropic_sse_stream "claude-3-haiku" "id-a"
          [chunkFinishA, chunkAfterB]) = 2
    ∧ build_anthropic_sse_stream "claude-3-haiku" "id-a" [chunkAfterB]
      = [SSEEvent.message_start "id-a" "claude-3-haiku",
         SSEEvent.content_block_start_text 0,
         SSEEvent.content_block_delta_text 0 "b"]
    ∧ (build_anthropic_sse_stream "claude-3-haiku" "id-a"
        [chunkAfterB]).all (fun e => !(isTerminalEvent e)) = true := by
  exact ⟨rfl, rfl, rfl, rfl⟩

/-- Claim C7 (refuted evaluation): for every transport failure the
orchestrator wraps the message under the error type connection_error,
which the error translator's keyword search does not recognise, so the
surfaced Anthropic error type is api_error and not
api_connection_error. -/
theorem C7_transport_failure_eval (m : String) :
    (orchestrate_transport_failure m).error.type = "api_error"
    ∧ ¬ (orchestrate_transport_failure m).error.type
        = "api_connection_error" := by
  refine ⟨rfl, ?_⟩
  intro h
  have : "api_error" = "api_connection_error" := h
  simp at this

/-- Claim C4 (counterexample): translating resp4, produced for a caller
whose request named claude-3-haiku, yields a response whose model field
is the upstream model id gpt-4o, not the caller's model string, and
whose id is the upstream id copied verbatim. -/
theorem C4_counterexample :
    ∃ r, translate_openai_to_anthropic_response parseJsonNone resp4
        = Except.ok r
      ∧ r.model = "gpt-4o"
      ∧ ¬ r.model = "claude-3-haiku"
      ∧ r.id = "chatcmpl-77" := by
  refine ⟨r4, rfl, rfl, ?_, rfl⟩
  intro h
  simp [r4] at h

/-- Claim C5 (counterexample): translating resp5, whose upstream message
has neither content nor tool calls, succeeds with an empty content list,
so the translated content has length 0 and no empty text block is
emitted. -/
theorem C5_counterexample :
    ∃ r, translate_openai_to_anthropic_response parseJsonNone resp5
        = Except.ok r
      ∧ r.content = []
      ∧ ¬ 1 ≤ r.content.length := by
  refine ⟨r5, rfl, rfl, ?_⟩
  intro h
  simp [r5] at h

/-- Claim C6 (counterexample): the sanitiser leaves tool6 unchanged even
though a string schema with format email sits one level below the
top-level properties, so the sanitised parameters still contain a
removable format and the recursive well-sanitisedness checker rejects
them. -/
theorem C6_counterexample :
    (translate_anthropic_tool_to_openai tool6).parameters_properties
        = tool6.input_schema.properties
    ∧ formatFullySanitized
        (Json.obj
          (translate_anthropic_tool_to_openai tool6).parameters_properties)
        = false := by
  exact ⟨rfl, rfl⟩

/-- Claim C3 (refuted evaluation): when the tool-call arguments string
does not parse as JSON, the translator keeps the raw string and the
pydantic validation of the tool_use input field rejects it, so the whole
unary translation fails instead of producing a wrapped raw-arguments
object and continuing. -/
theorem C3_parse_failure_eval (parseJson : String → Option Json)
    (h : parseJson "not json" = none) :
    translate_openai_to_anthropic_response parseJson resp3
      = Except.error tool_use_input_error_message := by
  simp [translate_openai_to_anthropic_response, resp3,
        translate_openai_message_content_to_anthropic, mapMExcept,
        translate_tool_call, h]

/-- Witness for claim C3 at a concrete json.loads stub. -/
theorem C3_parse_failure_eval_witness :
    translate_openai_to_anthropic_response parseJsonNone resp3
      = Except.error tool_use_input_error_message :=
  C3_parse_failure_eval parseJsonNone rfl

/-- Claim C10: an upstream response with an empty choices list makes the
translator raise ValueError, which the orchestrator converts to an
Anthropic error body of type invalid_request_error; no Anthropic
response is produced. -/
theorem C10_empty_choices (parseJson : String → Option Json)
    (resp : OpenAIChatCompletionResponse) (h : resp.choices = []) :
    translate_openai_to_anthropic_response parseJson resp
      = Except.error "OpenAI response had no choices."
    ∧ orchestrate_unary parseJson resp
      = OrchestratorUnaryResult.errorBody
          (translate_openai_error_to_anthropic_format
            (OpenAIErrorDetails.errorObj (some "invalid_request_error")
              (some "OpenAI response had no choices.")))
    ∧ (translate_openai_error_to_anthropic_format
        (OpenAIErrorDetails.errorObj (some "invalid_request_error")
          (some "OpenAI response had no choices."))).error.type
      = "invalid_request_error" := by
  have h1 : translate_openai_to_anthropic_response parseJson resp
      = Except.error "OpenAI response had no choices." := by
    simp [translate_openai_to_anthropic_response, h]
  refine ⟨h1, ?_, rfl⟩
  simp [orchestrate_unary, h1]

/-- Witness for claim C10 at a concrete empty-choices response. -/
theorem C10_empty_choices_witness :
    translate_openai_to_anthropic_response parseJsonNone respNoChoices
      = Except.error "OpenAI response had no choices."
    ∧ orchestrate_unary parseJsonNone respNoChoices
      = OrchestratorUnaryResult.errorBody
          (translate_openai_error_to_anthropic_format
            (OpenAIErrorDetails.errorObj (some "invalid_request_error")
              (some "OpenAI response had no choices.")))
    ∧ (translate_openai_error_to_anthropic_format
        (OpenAIErrorDetails.errorObj (some "invalid_request_error")
          (some "OpenAI response had no choices."))).error.type
      = "invalid_request_error" :=
  C10_empty_choices parseJsonNone respNoChoices rfl

/-- Shared characterisation of the message-content translation: the
produced record carries the given response id and model name, the
pydantic defaults for role and type, and an empty content list when the
upstream message has neither content nor tool calls. -/
theorem translate_content_fields (parseJson : String → Option Json)
    (msg : OpenAIChatCompletionChoiceMessage) (rid mn : String)
    (usage : OpenAICompletionUsage) (r : AnthropicMessagesResponse)
    (h : translate_openai_message_content_to_anthropic parseJson msg rid mn
      usage = Except.ok r) :
    r.model = mn ∧ r.id = rid ∧ r.role = "assistant" ∧ r.type = "message"
      ∧ (msg.content = none → msg.tool_calls = none → r.content = []) := by
  cases hm : msg.tool_calls with
  | none =>
      simp [translate_openai_message_content_to_anthropic, hm] at h
      cases hc : msg.content with
      | none =>
          rw [hc] at h
          simp at h
          subst h
          simp
      | some t =>
          rw [hc] at h
          subst h
          simp [hc]
  | some tcs =>
      by_cases he : tcs.isEmpty
      · simp [translate_openai_message_content_to_anthropic, hm, he] at h
        subst h
        simp [hm]
      · cases hres : mapMExcept (translate_tool_call parseJson) tcs with
        | error e =>
            simp [translate_openai_message_content_to_anthropic, hm, he,
              hres] at h
        | ok bs =>
            simp [translate_openai_message_content_to_anthropic, hm, he,
              hres] at h
            subst h
            simp [hm]

/-- Claim C4 (amended): the unary translator copies the upstream
response's model id and response id into the Anthropic response
verbatim; it does not see the caller's request and generates no fresh
id. -/
theorem C4_model_and_id_passthrough (parseJson : String → Option Json)
    (resp : OpenAIChatCompletionResponse) (r : AnthropicMessagesResponse)
    (h : translate_openai_to_anthropic_response parseJson resp
      = Except.ok r) :
    r.model = resp.model ∧ r.id = resp.id := by
  cases hch : resp.choices with
  | nil => simp [translate_openai_to_anthropic_response, hch] at h
  | cons fc rest =>
      cases hmc : translate_openai_message_content_to_anthropic parseJson
          fc.message resp.id resp.model
          (match resp.usage with
           | some u => u
           | none =>
               { completion_tokens := 0, prompt_tokens := 0,
                 total_tokens := 0 }) with
      | error e =>
          simp [translate_openai_to_anthropic_response, hch, hmc] at h
      | ok r0 =>
          have hf := translate_content_fields parseJson fc.message resp.id
            resp.model _ r0 hmc
          simp [translate_openai_to_anthropic_response, hch, hmc] at h
          cases hfr : fc.finish_reason with
          | none =>
              rw [hfr] at h
              simp at h
              subst h
              exact ⟨hf.1, hf.2.1⟩
          | some fr =>
              rw [hfr] at h
              simp at h
              subst h
              exact ⟨hf.1, hf.2.1⟩

/-- Witness for the amended claim C4 at the concrete response resp4. -/
theorem C4_model_and_id_passthrough_witness :
    r4.model = resp4.model ∧ r4.id = resp4.id :=
  C4_model_and_id_passthrough parseJsonNone resp4 r4 rfl

/-- Claim C5 (amended): every successfully translated response carries
role assistant and type message, but when the upstream message has
neither content nor tool calls the content list is empty; no empty text
block is emitted. -/
theorem C5_shape_amended (parseJson : String → Option Json)
    (resp : OpenAIChatCompletionResponse)
    (fc : OpenAIChatCompletionChoice)
    (rest : List OpenAIChatCompletionChoice)
    (r : AnthropicMessagesResponse)
    (hch : resp.choices = fc :: rest)
    (h : translate_openai_to_anthropic_response parseJson resp
      = Except.ok r) :
    r.role = "assistant" ∧ r.type = "message"
      ∧ (fc.message.content = none → fc.message.tool_calls = none →
          r.content = []) := by
  cases hmc : translate_openai_message_content_to_anthropic parseJson
      fc.message resp.id resp.model
      (match resp.usage with
       | some u => u
       | none =>
           { completion_tokens := 0, prompt_tokens := 0,
             total_tokens := 0 }) with
  | error e =>
      simp [translate_openai_to_anthropic_response, hch, hmc] at h
  | ok r0 =>
      have hf := translate_content_fields parseJson fc.message resp.id
        resp.model _ r0 hmc
      simp [translate_openai_to_anthropic_response, hch, hmc] at h
      cases hfr : fc.finish_reason with
      | none =>
          rw [hfr] at h
          simp at h
          subst h
          exact ⟨hf.2.2.1, hf.2.2.2.1, hf.2.2.2.2⟩
      | some fr =>
          rw [hfr] at h
          simp at h
          subst h
          exact ⟨hf.2.2.1, hf.2.2.2.1, hf.2.2.2.2⟩

/-- Witness for the amended claim C5 at the concrete response resp5. -/
theorem C5_shape_amended_witness :
    r5.role = "assistant" ∧ r5.type = "message" ∧ r5.content = [] := by
  have h := C5_shape_amended parseJsonNone resp5
    { finish_reason := some "stop"
      message := { content := none, tool_calls := none } } [] r5 rfl rfl
  exact ⟨h.1, h.2.1, h.2.2 rfl rfl⟩

/-- Claim C6 (amended): the sanitiser acts only on the immediate
property schemas of the top-level properties dict; on a matching schema
it removes exactly the format key and keeps every other key (hence every
nested schema) unchanged, and a non-matching schema is returned
untouched. -/
theorem C6_depth_one_amended (fields : List (String × Json)) :
    (stringFormatNeedsRemoval fields = true →
      sanitize_property_schema (Json.obj fields)
          = Json.obj (removeKey "format" fields)
        ∧ jLookup "format" (removeKey "format" fields) = none
        ∧ ∀ k, ¬ k = "format" →
            jLookup k (removeKey "format" fields) = jLookup k fields)
    ∧ (stringFormatNeedsRemoval fields = false →
        sanitize_property_schema (Json.obj fields) = Json.obj fields) := by
  constructor
  · intro h
    refine ⟨by simp [sanitize_property_schema, h],
      jLookup_removeKey_self _ _, ?_⟩
    intro k hk
    exact jLookup_removeKey_ne k "format" fields hk
  · intro h
    simp [sanitize_property_schema, h]

/-- Witness for the amended claim C6 at a removable depth-one schema. -/
theorem C6_depth_one_amended_witness :
    sanitize_property_schema (Json.obj fields6w)
        = Json.obj (removeKey "format" fields6w)
      ∧ jLookup "format" (removeKey "format" fields6w) = none
      ∧ ∀ k, ¬ k = "format" →
          jLookup k (removeKey "format" fields6w) = jLookup k fields6w :=
  (C6_depth_one_amended fields6w).1 rfl

/-- Idempotence of the per-property sanitisation step: once the format
key is gone the removal condition can no longer hold. -/
theorem sanitize_property_schema_idem (v : Json) :
    sanitize_property_schema (sanitize_property_schema v)
      = sanitize_property_schema v := by
  cases v with
  | obj fields =>
      by_cases h : stringFormatNeedsRemoval fields = true
      · have h2 : stringFormatNeedsRemoval (removeKey "format" fields)
            = false := by
          unfold stringFormatNeedsRemoval
          rw [jLookup_removeKey_self]
          simp
        simp [sanitize_property_schema, h, h2]
      · simp [sanitize_property_schema, h]
  | null => rfl
  | bool b => rfl
  | num n => rfl
  | str s => rfl
  | arr elems => rfl

/-- Claim C9: the tool-schema sanitiser is idempotent; sanitising the
properties dict twice equals sanitising it once. -/
theorem C9_sanitize_idempotent (props : List (String × Json)) :
    sanitize_tool_properties (sanitize_tool_properties props)
      = sanitize_tool_properties props := by
  induction props with
  | nil => rfl
  | cons kv rest ih =>
      simp [sanitize_tool_properties] at ih ⊢
      exact ⟨sanitize_property_schema_idem kv.2, ih⟩

/-- Collection preserves the tool messages of a block list in block
order. -/
theorem collect_user_blocks_snd (d : Json → String)
    (bs : List AnthropicRequestContentBlock) :
    (collect_user_blocks d bs).2 = bs.filterMap (tool_result_message d) := by
  induction bs with
  | nil => rfl
  | cons b rest ih =>
      cases b <;>
        simp [collect_user_blocks, tool_result_message,
          List.filterMap_cons, ih]

/-- Collection yields no content part exactly when the block list holds
no text or image block. -/
theorem collect_user_blocks_fst_empty (d : Json → String)
    (bs : List AnthropicRequestContentBlock) :
    (collect_user_blocks d bs).1.isEmpty
      = !(has_text_or_image_block bs) := by
  induction bs with
  | nil => rfl
  | cons b rest ih =>
      cases b <;>
        simp [collect_user_blocks, has_text_or_image_block,
          List.any_cons, ih]

/-- Claim C8: the upstream messages emitted for one user message with a
block list are exactly the tool messages of its tool_result blocks in
their original relative order, followed by at most one user message,
which is present whenever a text or image part exists. -/
theorem C8_tool_result_ordering (d : Json → String)
    (blocks : List AnthropicRequestContentBlock) :
    ∃ u, translate_user_content_blocks d blocks
        = blocks.filterMap (tool_result_message d) ++ u
      ∧ (∀ m ∈ u, is_user_message m = true)
      ∧ u.length ≤ 1
      ∧ (has_text_or_image_block blocks = true → u.length = 1) := by
  refine ⟨userTail d blocks, ?_, ?_, ?_, ?_⟩
  · rw [show translate_user_content_blocks d blocks
        = (collect_user_blocks d blocks).2 ++ userTail d blocks from rfl,
      collect_user_blocks_snd]
  · intro m hm
    simp only [userTail] at hm
    split at hm
    · split at hm
      · simp at hm
        subst hm
        rfl
      · simp at hm
    · split at hm
      · simp at hm
        subst hm
        rfl
      · simp at hm
        subst hm
        rfl
  · simp only [userTail]
    split
    · split
      · simp
      · simp
    · split
      · simp
      · simp
  · intro h
    have hfst : (collect_user_blocks d blocks).1.isEmpty = false := by
      rw [collect_user_blocks_fst_empty, h]
      rfl
    simp only [userTail]
    split
    · next hcond => rw [hfst] at hcond; cases hcond
    · split <;> rfl

/-- Witness for claim C8 at a concrete mixed block list. -/
theorem C8_tool_result_ordering_witness :
    ∃ u, translate_user_content_blocks dumpsStub blocks8
        = blocks8.filterMap (tool_result_message dumpsStub) ++ u
      ∧ (∀ m ∈ u, is_user_message m = true)
      ∧ u.length ≤ 1
      ∧ (has_text_or_image_block blocks8 = true → u.length = 1) :=
  C8_tool_result_ordering dumpsStub blocks8

/-- Processing the first chunk from the fresh state emits message_start
and otherwise behaves as processing from the started state. -/
theorem processChunk_first (m i : String) (c : OpenAIChunk) :
    processChunk m i ⟨false, 0, []⟩ c
      = ((processChunk m i ⟨true, 0, []⟩ c).1,
         SSEEvent.message_start i m
           :: (processChunk m i ⟨true, 0, []⟩ c).2) := by
  cases hch : c.choices with
  | nil => simp [processChunk, hch]
  | cons choice rest =>
      cases hco : choice.delta.content with
      | none =>
          cases hfr : choice.finish_reason <;>
            simp [processChunk, hch, hco, hfr]
      | some t =>
          by_cases ht : t = "" <;>
            cases hfr : choice.finish_reason <;>
              simp [processChunk, hch, hco, hfr, ht]

/-- Processing a finishless chunk with the text block open leaves the
state unchanged and emits only deltas at index 0. -/
theorem processChunk_S2_nofinish (m i : String) (c : OpenAIChunk)
    (h : chunkHasFinish c = false) :
    ∃ evs, processChunk m i ⟨true, 0, [0]⟩ c = (⟨true, 0, [0]⟩, evs)
      ∧ AllDeltas0 evs := by
  cases hch : c.choices with
  | nil =>
      refine ⟨[], by simp [processChunk, hch], ?_⟩
      intro e he
      exact absurd he (List.not_mem_nil e)
  | cons choice rest =>
      have hfr : choice.finish_reason = none := by
        cases hfr : choice.finish_reason with
        | none => rfl
        | some fr => simp [chunkHasFinish, hch, hfr] at h
      cases hco : choice.delta.content with
      | none =>
          refine ⟨[], by simp [processChunk, hch, hco, hfr], ?_⟩
          intro e he
          exact absurd he (List.not_mem_nil e)
      | some t =>
          by_cases ht : t = ""
          · refine ⟨[], by simp [processChunk, hch, hco, hfr, ht], ?_⟩
            intro e he
            exact absurd he (List.not_mem_nil e)
          · refine ⟨[SSEEvent.content_block_delta_text 0 t],
              by simp [processChunk, hch, hco, hfr, ht], ?_⟩
            intro e he
            simp at he
            exact ⟨t, he⟩

/-- Processing a finishless chunk with no block open either emits
nothing or opens the text block at index 0 with its first delta. -/
theorem processChunk_S1_nofinish (m i : String) (c : OpenAIChunk)
    (h : chunkHasFinish c = false) :
    processChunk m i ⟨true, 0, []⟩ c = (⟨true, 0, []⟩, [])
    ∨ ∃ t, processChunk m i ⟨true, 0, []⟩ c
        = (⟨true, 0, [0]⟩,
           [SSEEvent.content_block_start_text 0,
            SSEEvent.content_block_delta_text 0 t]) := by
  cases hch : c.choices with
  | nil => exact Or.inl (by simp [processChunk, hch])
  | cons choice rest =>
      have hfr : choice.finish_reason = none := by
        cases hfr : choice.finish_reason with
        | none => rfl
        | some fr => simp [chunkHasFinish, hch, hfr] at h
      cases hco : choice.delta.content with
      | none => exact Or.inl (by simp [processChunk, hch, hco, hfr])
      | some t =>
          by_cases ht : t = ""
          · exact Or.inl (by simp [processChunk, hch, hco, hfr, ht])
          · exact Or.inr ⟨t, by simp [processChunk, hch, hco, hfr, ht]⟩

/-- Processing a finish chunk with no block open closes the message with
a valid group suffix. -/
theorem processChunk_S1_finish (m i : String) (c : OpenAIChunk)
    (h : chunkHasFinish c = true) :
    ∃ evs, processChunk m i ⟨true, 0, []⟩ c = (⟨false, 0, []⟩, evs)
      ∧ checkGroups 0 evs = true := by
  cases hch : c.choices with
  | nil => simp [chunkHasFinish, hch] at h
  | cons choice rest =>
      obtain ⟨fr, hfr⟩ : ∃ fr, choice.finish_reason = some fr := by
        cases hfr : choice.finish_reason with
        | some fr => exact ⟨fr, rfl⟩
        | none => simp [chunkHasFinish, hch, hfr] at h
      cases hco : choice.delta.content with
      | none =>
          refine ⟨build_message_completion_events fr c.usage,
            by simp [processChunk, hch, hco, hfr], ?_⟩
          simp [build_message_completion_events, checkGroups]
      | some t =>
          by_cases ht : t = ""
          · refine ⟨build_message_completion_events fr c.usage,
              by simp [processChunk, hch, hco, hfr, ht], ?_⟩
            simp [build_message_completion_events, checkGroups]
          · refine ⟨[SSEEvent.content_block_start_text 0,
                SSEEvent.content_block_delta_text 0 t,
                SSEEvent.content_block_stop 0]
              ++ build_message_completion_events fr c.usage,
              by simp [processChunk, hch, hco, hfr, ht,
                build_message_completion_events], ?_⟩
            simp [build_message_completion_events, checkGroups, checkInBlock]

/-- Processing a finish chunk with the text block open closes that block
and the message with a valid in-block suffix. -/
theorem processChunk_S2_finish (m i : String) (c : OpenAIChunk)
    (h : chunkHasFinish c = true) :
    ∃ evs, processChunk m i ⟨true, 0, [0]⟩ c = (⟨false, 0, []⟩, evs)
      ∧ checkInBlock 0 evs = true := by
  cases hch : c.choices with
  | nil => simp [chunkHasFinish, hch] at h
  | cons choice rest =>
      obtain ⟨fr, hfr⟩ : ∃ fr, choice.finish_reason = some fr := by
        cases hfr : choice.finish_reason with
        | some fr => exact ⟨fr, rfl⟩
        | none => simp [chunkHasFinish, hch, hfr] at h
      cases hco : choice.delta.content with
      | none =>
          refine ⟨SSEEvent.content_block_stop 0
              :: build_message_completion_events fr c.usage,
            by simp [processChunk, hch, hco, hfr,
              build_message_completion_events], ?_⟩
          simp [build_message_completion_events, checkGroups, checkInBlock]
      | some t =>
          by_cases ht : t = ""
          · refine ⟨SSEEvent.content_block_stop 0
                :: build_message_completion_events fr c.usage,
              by simp [processChunk, hch, hco, hfr, ht,
                build_message_completion_events], ?_⟩
            simp [build_message_completion_events, checkGroups, checkInBlock]
          · refine ⟨[SSEEvent.content_block_delta_text 0 t,
                SSEEvent.content_block_stop 0]
              ++ build_message_completion_events fr c.usage,
              by simp [processChunk, hch, hco, hfr, ht,
                build_message_completion_events], ?_⟩
            simp [build_message_completion_events, checkGroups, checkInBlock]

/-- A run over finishless chunks with the text block open stays in that
state and emits only deltas at index 0. -/
theorem stepChunks_S2_nofinish (m i : String) (cs : List OpenAIChunk)
    (h : ∀ c ∈ cs, chunkHasFinish c = false) :
    ∃ evs, stepChunks m i ⟨true, 0, [0]⟩ cs = (⟨true, 0, [0]⟩, evs)
      ∧ AllDeltas0 evs := by
  induction cs with
  | nil =>
      refine ⟨[], rfl, ?_⟩
      intro e he
      exact absurd he (List.not_mem_nil e)
  | cons c cs ih =>
      obtain ⟨evs0, hp, hd0⟩ :=
        processChunk_S2_nofinish m i c (h c (by simp))
      obtain ⟨evs1, hs, hd1⟩ := ih (fun c' hc' => h c' (by simp [hc']))
      refine ⟨evs0 ++ evs1, by simp [stepChunks, hp, hs], ?_⟩
      intro e he
      rcases List.mem_append.1 he with h1 | h2
      · exact hd0 e h1
      · exact hd1 e h2

/-- Deltas at the open block's index are consumed by the in-block
recogniser. -/
theorem checkInBlock_deltas (ds rest : List SSEEvent)
    (h : AllDeltas0 ds) :
    checkInBlock 0 (ds ++ rest) = checkInBlock 0 rest := by
  induction ds with
  | nil => rfl
  | cons e ds ih =>
      obtain ⟨t, rfl⟩ := h e (by simp)
      have ih' := ih (fun e' he' => h e' (by simp [he']))
      simp [checkInBlock, ih']

/-- Splitting a run over an appended chunk list. -/
theorem stepChunks_append (m i : String) (xs ys : List OpenAIChunk)
    (st : SSEState) :
    stepChunks m i st (xs ++ ys)
      = ((stepChunks m i (stepChunks m i st xs).1 ys).1,
         (stepChunks m i st xs).2
           ++ (stepChunks m i (stepChunks m i st xs).1 ys).2) := by
  induction xs generalizing st with
  | nil => simp [stepChunks]
  | cons x xs ih => simp [stepChunks, ih, List.append_assoc]

/-- A run from the open-block state over finishless chunks followed by
one finish chunk produces a valid in-block suffix. -/
theorem tail_S2 (m i : String) (cs : List OpenAIChunk)
    (clast : OpenAIChunk) (h : ∀ c ∈ cs, chunkHasFinish c = false)
    (hl : chunkHasFinish clast = true) :
    checkInBlock 0
      (stepChunks m i ⟨true, 0, [0]⟩ (cs ++ [clast])).2 = true := by
  obtain ⟨evs, hs, hd⟩ := stepChunks_S2_nofinish m i cs h
  obtain ⟨evsF, hp, hc⟩ := processChunk_S2_finish m i clast hl
  rw [stepChunks_append, hs]
  simp [stepChunks, hp, checkInBlock_deltas _ _ hd, hc]

/-- A run from the started no-block state over finishless chunks
followed by one finish chunk produces a valid group suffix. -/
theorem tail_S1 (m i : String) (cs : List OpenAIChunk)
    (clast : OpenAIChunk) (h : ∀ c ∈ cs, chunkHasFinish c = false)
    (hl : chunkHasFinish clast = true) :
    checkGroups 0
      (stepChunks m i ⟨true, 0, []⟩ (cs ++ [clast])).2 = true := by
  induction cs with
  | nil =>
      obtain ⟨evsF, hp, hc⟩ := processChunk_S1_finish m i clast hl
      simp [stepChunks, hp, hc]
  | cons c cs ih =>
      have h0 := h c (by simp)
      rcases processChunk_S1_nofinish m i c h0 with hA | ⟨t, hB⟩
      · have ih' := ih (fun c' hc' => h c' (by simp [hc']))
        simpa [stepChunks, hA] using ih'
      · have hc2 := tail_S2 m i cs clast
          (fun c' hc' => h c' (by simp [hc'])) hl
        simp [stepChunks, hB, checkGroups, checkInBlock, hc2]

/-- A run from the started no-block state over finishless chunks emits
no message_delta and no message_stop. -/
theorem stepChunks_S1_nofinish_nonterminal (m i : String)
    (cs : List OpenAIChunk)
    (h : ∀ c ∈ cs, chunkHasFinish c = false) :
    (stepChunks m i ⟨true, 0, []⟩ cs).2.all
      (fun e => !(isTerminalEvent e)) = true := by
  induction cs with
  | nil => rfl
  | cons c cs ih =>
      have h0 := h c (by simp)
      rcases processChunk_S1_nofinish m i c h0 with hA | ⟨t, hB⟩
      · have ih' := ih (fun c' hc' => h c' (by simp [hc']))
        simpa [stepChunks, hA] using ih'
      · obtain ⟨evs, hs, hd⟩ := stepChunks_S2_nofinish m i cs
          (fun c' hc' => h c' (by simp [hc']))
        simp [stepChunks, hB, hs, isTerminalEvent]
        intro x hx
        obtain ⟨u, rfl⟩ := hd x hx
        rfl

/-- Claim C2 (amended): the builder violates the claimed lifecycle in
two ways, shown by the counterexample, and the amended statement
captures what actually holds. First part: for every chunk sequence of
the form finishless-chunks-then-one-finish-chunk, the translated stream
is exactly one message_start first, then complete content-block groups
at strictly increasing indices from 0 (at most one text block with the
present builder), then exactly one message_delta and one message_stop.
Second part: for every chunk sequence with no finish-reason chunk, the
builder never emits a message_delta or a message_stop (there is no
end-of-stream synthesis), so such streams stay unterminated. The
counterexample further shows that chunks arriving after a finish chunk
are not ignored: the builder resets and emits a second message_start. -/
theorem C2_bracketing_amended :
    (∀ (m i : String) (pre : List OpenAIChunk) (clast : OpenAIChunk),
      (∀ c ∈ pre, chunkHasFinish c = false) →
      chunkHasFinish clast = true →
      isBracketedStream
        (build_anthropic_sse_stream m i (pre ++ [clast])) = true)
    ∧ (∀ (m i : String) (chunks : List OpenAIChunk),
      (∀ c ∈ chunks, chunkHasFinish c = false) →
      (build_anthropic_sse_stream m i chunks).all
        (fun e => !(isTerminalEvent e)) = true) := by
  constructor
  · intro m i pre clast hpre hlast
    cases pre with
    | nil =>
        obtain ⟨evsF, hp, hc⟩ := processChunk_S1_finish m i clast hlast
        have hfirst := processChunk_first m i clast
        rw [hp] at hfirst
        simp [build_anthropic_sse_stream, stepChunks, hfirst,
          isBracketedStream, hc]
    | cons p0 pre' =>
        have h0 := hpre p0 (by simp)
        have hfirst := processChunk_first m i p0
        rcases processChunk_S1_nofinish m i p0 h0 with hA | ⟨t, hB⟩
        · rw [hA] at hfirst
          have htail := tail_S1 m i pre' clast
            (fun c' hc' => hpre c' (by simp [hc'])) hlast
          simpa [build_anthropic_sse_stream, stepChunks, hfirst,
            isBracketedStream] using htail
        · rw [hB] at hfirst
          have htail := tail_S2 m i pre' clast
            (fun c' hc' => hpre c' (by simp [hc'])) hlast
          simp [build_anthropic_sse_stream, stepChunks, hfirst,
            isBracketedStream, checkGroups, checkInBlock, htail]
  · intro m i chunks h
    cases chunks with
    | nil => rfl
    | cons c0 rest =>
        have h0 := h c0 (by simp)
        have hfirst := processChunk_first m i c0
        rcases processChunk_S1_nofinish m i c0 h0 with hA | ⟨t, hB⟩
        · rw [hA] at hfirst
          have hrest := stepChunks_S1_nofinish_nonterminal m i rest
            (fun c' hc' => h c' (by simp [hc']))
          rw [List.all_eq_true] at hrest
          simp [build_anthropic_sse_stream, stepChunks, hfirst,
            isTerminalEvent]
          intro x hx
          have hx2 := hrest x hx
          simpa [isTerminalEvent] using hx2
        · rw [hB] at hfirst
          obtain ⟨evs, hs, hd⟩ := stepChunks_S2_nofinish m i rest
            (fun c' hc' => h c' (by simp [hc']))
          simp [build_anthropic_sse_stream, stepChunks, hfirst, hs,
            isTerminalEvent]
          intro x hx
          obtain ⟨u, rfl⟩ := hd x hx
          rfl

/-- Witness for the amended claim C2: the first part at the
streamed-text scenario, the second part at its finishless prefix. -/
theorem C2_bracketing_amended_witness :
    isBracketedStream
      (build_anthropic_sse_stream "claude-3-haiku" "id5"
        ([chunkHe, chunkLlo] ++ [chunkStop])) = true
    ∧ (build_anthropic_sse_stream "claude-3-haiku" "id5"
        [chunkHe, chunkLlo]).all (fun e => !(isTerminalEvent e)) = true :=
  ⟨C2_bracketing_amended.1 "claude-3-haiku" "id5" [chunkHe, chunkLlo]
      chunkStop (by intro c hc; fin_cases hc <;> rfl) rfl,
   C2_bracketing_amended.2 "claude-3-haiku" "id5" [chunkHe, chunkLlo]
      (by intro c hc; fin_cases hc <;> rfl)⟩

/-- Witness for claim C7 at a concrete transport-failure message. -/
theorem C7_transport_failure_eval_witness :
    (orchestrate_transport_failure "connect call failed").error.type
        = "api_error"
    ∧ ¬ (orchestrate_transport_failure "connect call failed").error.type
        = "api_connection_error" :=
  C7_transport_failure_eval "connect call failed"

/-- Witness for claim C9 at a concrete properties dict holding one
string schema with a removable format. -/
theorem C9_sanitize_idempotent_witness :
    sanitize_tool_properties
        (sanitize_tool_properties [("website_url", Json.obj fields6w)])
      = sanitize_tool_properties [("website_url", Json.obj fields6w)] :=
  C9_sanitize_idempotent [("website_url", Json.obj fields6w)]
